import Mathlib

/-!
# VibeLink game-session flow: shallow embedding and verification

This file embeds the live game-session flow of the VibeLink backend:

* the `game_sessions` table row (`GameSession`) and the `round_responses`
  table (`RoundResponse`, with its `UNIQUE(game_session_id, user_id,
  round_number)` constraint from the schema DDL),
* `GameSessionRepository.update` / `updateStatus` / `endSession` /
  `getLeaderboard` (repositories/GameSessionRepository.ts),
* the Socket.io event handlers `start-game`, `submit-response`,
  `join-session` and `next-round` (socket handlers module),
* the REST handlers `PATCH /session/:sessionId` and
  `POST /session/:sessionId/response` (routes/games.ts),

and proves or refutes the specification's claims about them.

Conventions of the embedding:
* the database is a pure value (`Store` for sessions, `ResponseTable`
  for round responses); every handler returns the new database value,
  an acknowledgment and the list of emitted broadcasts;
* timestamps are abstract `Nat` ticks (`new Date()` becomes a `now`
  parameter);
* JavaScript falsy tests on strings (`x || d`, `if (x)`) are modelled
  explicitly: `none` and the empty string count as falsy;
* `Array.prototype.indexOf` is modelled by `idxOf`, returning `-1` as
  an `Int` when the element is absent.
-/

/-- The fixed round sequence of the next-round handler. -/
def roundSequence : List String := ["questions", "synergy", "blindChat", "humor", "results"]

/-- JavaScript `Array.prototype.indexOf`: position of the first occurrence,
`-1` when absent. -/
def idxOf : List String → String → Int
  | [], _ => -1
  | x :: xs, y =>
      if x = y then 0
      else
        let r := idxOf xs y
        if r = -1 then -1 else r + 1

/-- JavaScript `v || d` on a nullable string: `null`/`undefined` and the
empty string are falsy and yield the default. -/
def orFalsy (v : Option String) (d : String) : String :=
  match v with
  | none => d
  | some s => if s = "" then d else s

/-- One row of the `game_sessions` table (schema: id, room_id, status,
current_round, game_state, participant_ids, started_at, ended_at,
created_at, metadata; metadata is an opaque bag and is omitted, no
operation in this flow reads or writes it). -/
structure GameSession where
  id : String
  room_id : Option String
  status : String
  current_round : Nat
  game_state : Option String
  participant_ids : List String
  started_at : Option Nat
  ended_at : Option Nat
  created_at : Nat
  deriving Repr, DecidableEq

/-- The session store: the `game_sessions` table as a list of rows. -/
abbrev Store := List GameSession

/-- `SELECT * FROM game_sessions WHERE id = $1` then `rows[0] || null`. -/
def findById (st : Store) (id : String) : Option GameSession :=
  List.find? (fun s => s.id = id) st

/-- A partial field set for `GameSessionRepository.update`
(`Partial<GameSession>` restricted to the fields the callers in this
flow actually supply: status, game_state, current_round, ended_at). -/
structure SessionUpdates where
  status : Option String := none
  game_state : Option String := none
  current_round : Option Nat := none
  ended_at : Option Nat := none
  deriving Repr, DecidableEq

/-- `Object.entries(updates)` is empty: no field supplied. -/
def SessionUpdates.isEmpty (u : SessionUpdates) : Bool :=
  u.status.isNone && u.game_state.isNone && u.current_round.isNone && u.ended_at.isNone

/-- Effect of the generated `UPDATE game_sessions SET f1 = v1, ...` on a
single row: each supplied field is overwritten, every other column keeps
its value. -/
def applyUpdates (s : GameSession) (u : SessionUpdates) : GameSession :=
  { s with
    status := u.status.getD s.status
    game_state := match u.game_state with
      | some g => some g
      | none => s.game_state
    current_round := u.current_round.getD s.current_round
    ended_at := match u.ended_at with
      | some t => some t
      | none => s.ended_at }

/-- The `UPDATE ... WHERE id = $1` statement applied to the table. -/
def storeUpdate (st : Store) (id : String) (u : SessionUpdates) : Store :=
  st.map (fun s => if s.id = id then applyUpdates s u else s)

/-- A write issued against the database (used to state that an operation
performs no write, or exactly one). -/
inductive WriteEvent where
  | updateSessions (id : String) (u : SessionUpdates)
  | insertResponse (sessionId userId : String) (roundNumber : Nat)
  deriving Repr, DecidableEq

/-- Result of a repository call: new table state, returned row, and the
writes issued. -/
structure UpdateOut where
  store : Store
  result : Option GameSession
  writes : List WriteEvent

namespace GameSessionRepository

/-- `GameSessionRepository.update`: builds the field list from the supplied
entries; if no field is supplied it degrades to `findById` (no write);
otherwise it issues one UPDATE and returns `RETURNING *` (`rows[0] || null`,
so `none` when the id matches no row). -/
def update (st : Store) (id : String) (u : SessionUpdates) : UpdateOut :=
  if u.isEmpty then
    { store := st, result := findById st id, writes := [] }
  else
    let st2 := storeUpdate st id u
    { store := st2, result := findById st2 id, writes := [WriteEvent.updateSessions id u] }

/-- `GameSessionRepository.updateStatus`: update with `{ status }`, plus
`game_state` when the `gameState` argument is truthy. -/
def updateStatus (st : Store) (id status : String) (gameState : Option String) : UpdateOut :=
  let gs : Option String := match gameState with
    | some g => if g = "" then none else some g
    | none => none
  update st id { status := some status, game_state := gs }

/-- `GameSessionRepository.endSession`: update with
`{ status: 'completed', ended_at: new Date() }`. -/
def endSession (st : Store) (id : String) (now : Nat) : UpdateOut :=
  update st id { status := some "completed", ended_at := some now }

end GameSessionRepository

/-- One row of the `round_responses` table (columns relevant to this
flow; the schema also carries sentiment/empathy/energy annotations that
no handler in this flow writes with a non-default value). -/
structure RoundResponse where
  game_session_id : String
  user_id : String
  round_number : Nat
  round_type : String
  response_text : String
  response_data : Option String
  raw_score : Int
  deriving Repr, DecidableEq

/-- The `round_responses` table. -/
abbrev ResponseTable := List RoundResponse

/-- A row for the key `(game_session_id, user_id, round_number)` exists:
the `UNIQUE(game_session_id, user_id, round_number)` constraint of the
schema. -/
def hasResponseKey (tbl : ResponseTable) (sid uid : String) (rn : Nat) : Bool :=
  tbl.any (fun r => r.game_session_id = sid && r.user_id = uid && r.round_number = rn)

/-- A plain `INSERT INTO round_responses`: appends the row, or raises a
unique-constraint violation (`none`) when a row with the same key exists. -/
def insertResponse (tbl : ResponseTable) (r : RoundResponse) : Option ResponseTable :=
  if hasResponseKey tbl r.game_session_id r.user_id r.round_number then none
  else some (tbl ++ [r])

/-- The success/failure envelope of a Socket.io acknowledgment callback. -/
inductive Ack where
  | success
  | failure (error : String)
  deriving Repr, DecidableEq

/-- Events emitted to the session's broadcast group. The constructor
fields are exactly the payload fields the code puts in the emitted
object (timestamps omitted as abstract). -/
inductive Broadcast where
  | userJoined (userId username : String)
  | gameStarted (session : Option GameSession)
  | responseSubmitted (userId username : String) (roundNumber : Nat)
  | roundChanged (round : Nat) (gameState : String)
  | gameFinished
  deriving Repr, DecidableEq

/-- Output of a session-mutating gateway handler. -/
structure GatewayOut where
  store : Store
  ack : Ack
  broadcasts : List Broadcast

/-! ## The real-time gateway handlers -/

/-- Read phase of the next-round handler:
`GameSessionRepository.findById(sessionId)`. -/
def readPhase (st : Store) (sessionId : String) : Option GameSession :=
  findById st sessionId

/-- Write phase of the next-round handler, given the snapshot the read
phase produced: computes `currentIndex = roundSequence.indexOf(game_state
|| 'questions')` and `nextIndex = currentIndex + 1`; when the sequence is
exhausted calls `endSession` and emits `game-finished`, otherwise updates
`game_state`/`current_round` and emits `round-changed`. -/
def writePhase (st : Store) (sessionId : String) (now : Nat) :
    Option GameSession → GatewayOut
  | none => { store := st, ack := Ack.failure "Session not found", broadcasts := [] }
  | some session =>
      let currentIndex : Int := idxOf roundSequence (orFalsy session.game_state "questions")
      let nextIndex : Int := currentIndex + 1
      if (roundSequence.length : Int) ≤ nextIndex then
        let r := GameSessionRepository.endSession st sessionId now
        { store := r.store, ack := Ack.success, broadcasts := [Broadcast.gameFinished] }
      else
        let nextState := (roundSequence.get? nextIndex.toNat).getD ""
        let r := GameSessionRepository.update st sessionId
          { game_state := some nextState, current_round := some nextIndex.toNat }
        { store := r.store, ack := Ack.success,
          broadcasts := [Broadcast.roundChanged nextIndex.toNat nextState] }

/-- The `next-round` socket handler: read the session, then run the write
phase on the snapshot. -/
def nextRoundHandler (st : Store) (sessionId : String) (now : Nat) : GatewayOut :=
  writePhase st sessionId now (readPhase st sessionId)

/-- The `start-game` socket handler: calls
`updateStatus(sessionId, 'playing', 'questions')` and acknowledges success;
it never looks at the session row, the caller's identity `userId`, or the
participant list (the `userId` argument is the authenticated connection's
identity, present on the socket but unused by this handler). -/
def startGameHandler (st : Store) (userId sessionId : String) : GatewayOut :=
  let r := GameSessionRepository.updateStatus st sessionId "playing" (some "questions")
  { store := r.store, ack := Ack.success,
    broadcasts := [Broadcast.gameStarted r.result] }

/-- Output of a handler that writes the `round_responses` table. -/
structure ResponseOut where
  table : ResponseTable
  ack : Ack
  broadcasts : List Broadcast
  writes : List WriteEvent

/-- The `submit-response` socket handler: inserts the row (raw_score 10,
no response_data column in this INSERT) with a plain INSERT — a second
row for the same key violates the unique constraint and is caught as
"Failed to submit response"; on success it broadcasts only
`{ userId, username, roundNumber }`. -/
def submitResponseHandler (tbl : ResponseTable) (userId username : String)
    (sessionId : String) (roundNumber : Nat) (roundType responseText : String) :
    ResponseOut :=
  let row : RoundResponse :=
    { game_session_id := sessionId, user_id := userId, round_number := roundNumber
      round_type := roundType, response_text := responseText
      response_data := none, raw_score := 10 }
  match insertResponse tbl row with
  | none =>
      { table := tbl, ack := Ack.failure "Failed to submit response",
        broadcasts := [], writes := [] }
  | some tbl2 =>
      { table := tbl2, ack := Ack.success,
        broadcasts := [Broadcast.responseSubmitted userId username roundNumber],
        writes := [WriteEvent.insertResponse sessionId userId roundNumber] }

/-- Output of the `join-session` handler: acknowledgment, broadcasts, and
the room the connection joined (`socket.join(sessionId)`), if any. -/
structure JoinOut where
  ack : Ack
  broadcasts : List Broadcast
  joinedRoom : Option String

/-- The `join-session` socket handler: session must exist and the caller
must be in its `participant_ids`; on success the connection joins the
room and the others are notified with the joining identity. -/
def joinSessionHandler (st : Store) (userId username sessionId : String) : JoinOut :=
  match findById st sessionId with
  | none => { ack := Ack.failure "Session not found", broadcasts := [], joinedRoom := none }
  | some session =>
      if userId ∈ session.participant_ids then
        { ack := Ack.success,
          broadcasts := [Broadcast.userJoined userId username],
          joinedRoom := some sessionId }
      else
        { ack := Ack.failure "Not a participant in this session",
          broadcasts := [], joinedRoom := none }

/-! ## The REST handlers (routes/games.ts) -/

/-- Outcome of a REST request in this flow. -/
inductive RestResult where
  | created (row : RoundResponse)
  | ok (session : Option GameSession)
  | notFound (msg : String)
  | forbidden (msg : String)
  | internalError
  deriving Repr, DecidableEq

/-- `POST /api/games/session/:sessionId/response`: 404 when the session
is absent, 403 when the caller is not in `participant_ids`. The INSERT
statement this route then runs is syntactically invalid SQL — it places
`RETURNING *` before its `ON CONFLICT (game_session_id, user_id,
round_number) DO UPDATE` clause (and repeats it after) — so the statement
never parses and every submission that reaches it fails with a store
error; the table is never changed by this route. -/
def restSubmitResponse (st : Store) (tbl : ResponseTable) (userId sessionId : String)
    (roundNumber : Nat) (roundType : String)
    (responseText : Option String) (responseData : Option String) :
    ResponseTable × RestResult :=
  match findById st sessionId with
  | none => (tbl, RestResult.notFound "Game session not found")
  | some session =>
      if userId ∈ session.participant_ids then
        -- malformed statement: always a store error, no row written
        (tbl, RestResult.internalError)
      else
        (tbl, RestResult.forbidden "You are not participating in this session")

/-- `PATCH /api/games/session/:sessionId`: 404 when absent; otherwise
builds `updates` from the truthy `status`/`gameState` fields and the
present `currentRound` field, and calls `GameSessionRepository.update`. -/
def patchSessionHandler (st : Store) (sessionId : String)
    (status gameState : Option String) (currentRound : Option Nat) :
    Store × RestResult :=
  match findById st sessionId with
  | none => (st, RestResult.notFound "Game session not found")
  | some _ =>
      let truthy : Option String → Option String := fun v =>
        match v with
        | some s => if s = "" then none else some s
        | none => none
      let r := GameSessionRepository.update st sessionId
        { status := truthy status, game_state := truthy gameState
          current_round := currentRound }
      (r.store, RestResult.ok r.result)

/-- `POST /api/games/session` body handling after validation: INSERT with
status 'lobby' and the database defaults `current_round = 0`,
`game_state = NULL`, `started_at = ended_at = NULL`. -/
def createSession (st : Store) (newId : String) (roomId : String)
    (participantIds : List String) (now : Nat) : Store × GameSession :=
  let s : GameSession :=
    { id := newId, room_id := some roomId, status := "lobby"
      current_round := 0, game_state := none
      participant_ids := participantIds
      started_at := none, ended_at := none, created_at := now }
  (st ++ [s], s)

/-! ## Leaderboard (GameSessionRepository.getLeaderboard) -/

/-- One row of the `users` table (columns the leaderboard query reads;
`avatar` is carried through unchanged and omitted here). -/
structure UserRow where
  id : String
  username : String
  deriving Repr, DecidableEq

/-- One mapped row of the leaderboard result (`avg_sentiment` is a
floating-point average outside this development's scope and not part of
any claim; the remaining mapped fields are kept). -/
structure LeaderboardEntry where
  id : String
  username : String
  score : Int
  rank : Nat
  roundsCompleted : Nat
  deriving Repr, DecidableEq

/-- Responses of one user in one session:
`LEFT JOIN round_responses rr ON rr.game_session_id = gs.id AND rr.user_id = u.id`. -/
def userResponses (tbl : ResponseTable) (sessionId uid : String) : List RoundResponse :=
  tbl.filter (fun r => r.game_session_id = sessionId && r.user_id = uid)

/-- `SUM(COALESCE(rr.raw_score, 0))` for one group. The lateral unnest of
`participant_ids` joins every occurrence of the id against the responses,
so a duplicated participant id multiplies the sum (`mult` is the number
of occurrences); a participant with no responses sums to 0. -/
def groupScore (tbl : ResponseTable) (sessionId uid : String) (mult : Nat) : Int :=
  (mult : Int) * ((userResponses tbl sessionId uid).map (fun r => r.raw_score)).sum

/-- `COUNT(DISTINCT rr.round_number)` for one group. -/
def roundsCompletedOf (tbl : ResponseTable) (sessionId uid : String) : Nat :=
  ((userResponses tbl sessionId uid).map (fun r => r.round_number)).dedup.length

/-- The grouped rows before ordering: one row per distinct participant id
that has a matching `users` row (`JOIN users u ON u.id = participant_id`
drops unnested ids with no user row; `GROUP BY u.id` merges duplicate
occurrences), enumerated in first-occurrence order. -/
def leaderboardGroups (users : List UserRow) (tbl : ResponseTable)
    (sessionId : String) (pids : List String) : List LeaderboardEntry :=
  (pids.foldl (fun acc pid => if pid ∈ acc then acc else acc ++ [pid]) []).filterMap
    (fun pid =>
      (users.find? (fun u => u.id = pid)).map (fun u =>
        { id := u.id, username := u.username
          score := groupScore tbl sessionId pid (pids.count pid)
          rank := 0
          roundsCompleted := roundsCompletedOf tbl sessionId pid }))

/-- Stable insertion for `ORDER BY total_score DESC` (ties keep the
earlier group first, the deterministic reading of the unspecified
tie-break). -/
def insertDesc (e : LeaderboardEntry) : List LeaderboardEntry → List LeaderboardEntry
  | [] => [e]
  | x :: xs => if x.score < e.score then e :: x :: xs else x :: insertDesc e xs

/-- `ORDER BY total_score DESC` as a stable insertion sort. -/
def sortDesc : List LeaderboardEntry → List LeaderboardEntry
  | [] => []
  | x :: xs => insertDesc x (sortDesc xs)

/-- `ROW_NUMBER() OVER (ORDER BY ... DESC)`: consecutive rank numbers in
output order, starting at `n`. -/
def rankFrom (n : Nat) : List LeaderboardEntry → List LeaderboardEntry
  | [] => []
  | e :: es => { e with rank := n } :: rankFrom (n + 1) es

/-- `GameSessionRepository.getLeaderboard(sessionId, limit)`: group the
responses of the session's participants, sum per-participant score, order
by total score descending with row-number ranks, and `LIMIT limit`.
Returns `[]` when the session id matches no row (the SQL joins against an
empty set). -/
def getLeaderboard (users : List UserRow) (tbl : ResponseTable) (st : Store)
    (sessionId : String) (limit : Nat) : List LeaderboardEntry :=
  match findById st sessionId with
  | none => []
  | some session =>
      ((rankFrom 1 (sortDesc
        (leaderboardGroups users tbl sessionId session.participant_ids)))).take limit

/-! ## Two concurrent next-round calls: interleaving model

The handler is `await findById` (read phase) followed by `await update`
(write phase), with no transaction, lock, or compare-and-swap between the
two awaits.  Two concurrent calls A and B on the same session are modelled
as the interleavings of their read and write steps in which each call's
read precedes its own write. -/

/-- A scheduling step of one of the two concurrent calls. -/
inductive Step where
  | readA
  | writeA
  | readB
  | writeB
  deriving Repr, DecidableEq

/-- Shared store plus the per-call local state: the snapshot each call's
read phase took (if taken yet) and the acknowledgment each call returned
(if finished). -/
structure ConcState where
  store : Store
  snapA : Option (Option GameSession) := none
  snapB : Option (Option GameSession) := none
  ackA : Option Ack := none
  ackB : Option Ack := none

/-- Execute one scheduling step (a write step before the call's own read
step cannot occur in a valid schedule and is a no-op). -/
def stepConc (sessionId : String) (now : Nat) (c : ConcState) : Step → ConcState
  | Step.readA => { c with snapA := some (readPhase c.store sessionId) }
  | Step.readB => { c with snapB := some (readPhase c.store sessionId) }
  | Step.writeA =>
      match c.snapA with
      | some snap =>
          let r := writePhase c.store sessionId now snap
          { c with store := r.store, ackA := some r.ack }
      | none => c
  | Step.writeB =>
      match c.snapB with
      | some snap =>
          let r := writePhase c.store sessionId now snap
          { c with store := r.store, ackB := some r.ack }
      | none => c

/-- Run a schedule from an initial store. -/
def runSched (st : Store) (sessionId : String) (now : Nat) (sched : List Step) : ConcState :=
  sched.foldl (stepConc sessionId now) { store := st }

/-- All interleavings of the two calls in which each call reads before it
writes. -/
def allScheds : List (List Step) :=
  [ [Step.readA, Step.writeA, Step.readB, Step.writeB],
    [Step.readA, Step.readB, Step.writeA, Step.writeB],
    [Step.readA, Step.readB, Step.writeB, Step.writeA],
    [Step.readB, Step.readA, Step.writeA, Step.writeB],
    [Step.readB, Step.readA, Step.writeB, Step.writeA],
    [Step.readB, Step.writeB, Step.readA, Step.writeA] ]

/-! ## The round-index/round-label invariant (claim C3) -/

/-- Position of a nullable label in the round sequence (`-1` for a null
label, matching the `indexOf` convention). -/
def idxOfOpt (g : Option String) : Int :=
  match g with
  | none => -1
  | some l => idxOf roundSequence l

/-- The spec's invariant: the stored round index is the position of the
stored round label in the fixed sequence, except for finished
(`'completed'`) sessions. -/
def roundInv (s : GameSession) : Prop :=
  s.status = "completed" ∨ idxOfOpt s.game_state = (s.current_round : Int)

instance (s : GameSession) : Decidable (roundInv s) := by
  unfold roundInv; infer_instance

/-! ## Basic lemmas about the store -/

theorem applyUpdates_id (s : GameSession) (u : SessionUpdates) :
    (applyUpdates s u).id = s.id := rfl

/-- Updating a session id and then looking it up returns the updated row
(or `none` when the id matches no row). -/
theorem findById_storeUpdate (st : Store) (id : String) (u : SessionUpdates) :
    findById (storeUpdate st id u) id = (findById st id).map (fun s => applyUpdates s u) := by
  induction st with
  | nil => rfl
  | cons s rest ih =>
      by_cases h : s.id = id
      · have h2 : (applyUpdates s u).id = id := by rw [applyUpdates_id]; exact h
        simp [findById, storeUpdate, List.find?_cons, h, h2]
      · simp only [findById, storeUpdate, List.map_cons, List.find?_cons] at ih ⊢
        simp only [if_neg h]
        simp [List.find?_cons, h, ih]

/-- Updating one session id leaves the lookup of any other id unchanged. -/
theorem findById_storeUpdate_ne (st : Store) (id other : String) (u : SessionUpdates)
    (h : other ≠ id) :
    findById (storeUpdate st id u) other = findById st other := by
  induction st with
  | nil => rfl
  | cons s rest ih =>
      simp only [findById, storeUpdate, List.map_cons, List.find?_cons] at ih ⊢
      by_cases hs : s.id = id
      · have h2 : ¬ (applyUpdates s u).id = other := by
          rw [applyUpdates_id, hs]; exact h.symm
        have h3 : ¬ s.id = other := by rw [hs]; exact h.symm
        rw [if_pos hs]
        simp [List.find?_cons, h2, h3, ih]
      · rw [if_neg hs]
        by_cases ho : s.id = other
        · simp [List.find?_cons, ho]
        · simp [List.find?_cons, ho, ih]

/-- Every string is one of the five round labels or absent from the
sequence (`indexOf` yields `-1`). -/
theorem roundLabel_cases (c : String) :
    c = "questions" ∨ c = "synergy" ∨ c = "blindChat" ∨ c = "humor" ∨ c = "results" ∨
      idxOf roundSequence c = -1 := by
  by_cases h1 : c = "questions"
  · exact Or.inl h1
  by_cases h2 : c = "synergy"
  · exact Or.inr (Or.inl h2)
  by_cases h3 : c = "blindChat"
  · exact Or.inr (Or.inr (Or.inl h3))
  by_cases h4 : c = "humor"
  · exact Or.inr (Or.inr (Or.inr (Or.inl h4)))
  by_cases h5 : c = "results"
  · exact Or.inr (Or.inr (Or.inr (Or.inr (Or.inl h5))))
  refine Or.inr (Or.inr (Or.inr (Or.inr (Or.inr ?_))))
  simp [roundSequence, idxOf, Ne.symm h1, Ne.symm h2, Ne.symm h3, Ne.symm h4, Ne.symm h5]

/-! ## Concrete fixtures -/

/-- Fixture: a lobby session at round 'questions', index 0. -/
def sessionQ : GameSession :=
  { id := "s1", room_id := some "r1", status := "lobby", current_round := 0
    game_state := some "questions", participant_ids := ["u1", "u2"]
    started_at := none, ended_at := none, created_at := 5 }

/-- Fixture store holding only `sessionQ`. -/
def storeQ : Store := [sessionQ]

/-- Fixture: a playing session at the last round 'results', index 4. -/
def sessionR : GameSession :=
  { sessionQ with status := "playing", game_state := some "results", current_round := 4 }

/-- Fixture store holding only `sessionR`. -/
def storeR : Store := [sessionR]

/-- Fixture: a session whose label 'warmup' is not in the round sequence. -/
def sessionW : GameSession := { sessionQ with game_state := some "warmup" }

/-- Fixture store holding only `sessionW`. -/
def storeW : Store := [sessionW]

/-! ## C10: start-game performs no existence or membership validation -/

/-- C10: for every store, caller identity and session id, the start-game
handler acknowledges success (never a NotFound/Forbidden-class failure),
its outcome is independent of the caller's identity and membership, and
it issues the status update (status 'playing', round label 'questions')
unconditionally — applied to the session when it exists, a no-op UPDATE
matching no row when it does not. -/
theorem c10_start_game_no_validation (st : Store) (uid1 uid2 sid : String) :
    (startGameHandler st uid1 sid).ack = Ack.success ∧
    startGameHandler st uid1 sid = startGameHandler st uid2 sid ∧
    (startGameHandler st uid1 sid).store =
      storeUpdate st sid { status := some "playing", game_state := some "questions" } ∧
    findById (startGameHandler st uid1 sid).store sid =
      (findById st sid).map
        (fun s => applyUpdates s { status := some "playing", game_state := some "questions" }) := by
  refine ⟨rfl, rfl, rfl, ?_⟩
  have h : (startGameHandler st uid1 sid).store =
      storeUpdate st sid { status := some "playing", game_state := some "questions" } := rfl
  rw [h, findById_storeUpdate]

/-! ## C8: submit-response broadcasts are independent of response content -/

/-- C8: the broadcast the submit-response handler sends to the session's
room carries only the submitter's identity and the round number: two
submissions differing only in their response text produce identical
broadcast lists, and any broadcast sent is exactly the lightweight
`response-submitted` notice (none is sent on a failed insert). -/
theorem c8_broadcast_content_independent
    (tbl : ResponseTable) (uid uname sid : String) (rn : Nat) (rt t1 t2 : String) :
    (submitResponseHandler tbl uid uname sid rn rt t1).broadcasts =
      (submitResponseHandler tbl uid uname sid rn rt t2).broadcasts ∧
    ((submitResponseHandler tbl uid uname sid rn rt t1).broadcasts = [] ∨
      (submitResponseHandler tbl uid uname sid rn rt t1).broadcasts =
        [Broadcast.responseSubmitted uid uname rn]) := by
  unfold submitResponseHandler insertResponse
  by_cases h : hasResponseKey tbl sid uid rn
  · simp [h]
  · simp [h]

/-! ## C2: resubmitting for the same key does not overwrite -/

/-- C2 (code evaluated at the failing input): submitting twice for the
key (session "s1", user "u1", round 1) through the real-time handler
leaves exactly one stored row, but the second submission fails with
"Failed to submit response" and the stored content is the FIRST
submission's text — not the overwrite the claim requires.  On the REST
route the INSERT statement itself is malformed (`RETURNING *` precedes
its `ON CONFLICT` clause), so even a participant's submission errors out
with no row written. -/
theorem c2_resubmission_not_overwritten :
    (submitResponseHandler [] "u1" "alice" "s1" 1 "questions" "first").ack = Ack.success ∧
    (submitResponseHandler
        (submitResponseHandler [] "u1" "alice" "s1" 1 "questions" "first").table
        "u1" "alice" "s1" 1 "questions" "second").ack =
      Ack.failure "Failed to submit response" ∧
    (submitResponseHandler
        (submitResponseHandler [] "u1" "alice" "s1" 1 "questions" "first").table
        "u1" "alice" "s1" 1 "questions" "second").table =
      [{ game_session_id := "s1", user_id := "u1", round_number := 1
         round_type := "questions", response_text := "first"
         response_data := none, raw_score := 10 }] ∧
    restSubmitResponse storeQ [] "u1" "s1" 1 "questions" (some "second") none =
      ([], RestResult.internalError) :=
  ⟨rfl, rfl, rfl, rfl⟩

/-! ## Counterexamples for the corrected claims -/

/-- C1 counterexample: advancing `sessionQ` (status 'lobby', label
'questions') moves the label to 'synergy' and the index to 1 but leaves
the status 'lobby' — the handler's advance branch never sets the status
to the in-progress value 'playing', contrary to the claim. -/
theorem c1_counterexample :
    findById (nextRoundHandler storeQ "s1" 9).store "s1" =
      some { sessionQ with game_state := some "synergy", current_round := 1 } ∧
    ({ sessionQ with game_state := some "synergy", current_round := 1 } : GameSession).status
      = "lobby" ∧
    "lobby" ≠ "playing" :=
  ⟨rfl, rfl, by decide⟩

/-- C5 counterexample: advancing from the unrecognized label 'warmup'
lands ON the first label ('questions', index 0), whereas advancing from
the start label 'questions' itself lands on 'synergy' (index 1) — so an
unrecognized label does NOT behave as advancing from the start; only a
null label does. -/
theorem c5_counterexample :
    findById (nextRoundHandler storeW "s1" 9).store "s1" =
      some { sessionW with game_state := some "questions", current_round := 0 } ∧
    findById (nextRoundHandler storeQ "s1" 9).store "s1" =
      some { sessionQ with game_state := some "synergy", current_round := 1 } ∧
    (some "questions" : Option String) ≠ some "synergy" :=
  ⟨rfl, rfl, by decide⟩

/-- C3 counterexample: from a state satisfying the round invariant,
`PATCH` with only `gameState = 'humor'` produces label 'humor' with the
stale index 0 and non-finished status — the invariant is not preserved;
moreover a freshly created session (null label, index 0, status 'lobby')
does not satisfy it either. -/
theorem c3_counterexample :
    roundInv sessionQ ∧
    (patchSessionHandler storeQ "s1" none (some "humor") none).1 =
      [{ sessionQ with game_state := some "humor" }] ∧
    ¬ roundInv { sessionQ with game_state := some "humor" } ∧
    ¬ roundInv (createSession [] "s2" "r1" ["u1", "u2"] 0).2 :=
  ⟨by decide, rfl, by decide, by decide⟩

/-- C4 counterexample: "eve" is not a participant of session "s1", yet
her real-time submit-response event succeeds and writes a row — the
socket path performs no membership check, contrary to the claim that a
non-participant's submission is rejected with no row written. -/
theorem c4_counterexample :
    ¬ ("eve" ∈ sessionQ.participant_ids) ∧
    (submitResponseHandler [] "eve" "Eve" "s1" 1 "questions" "leak").ack = Ack.success ∧
    (submitResponseHandler [] "eve" "Eve" "s1" 1 "questions" "leak").table =
      [{ game_session_id := "s1", user_id := "eve", round_number := 1
         round_type := "questions", response_text := "leak"
         response_data := none, raw_score := 10 }] :=
  ⟨by decide, rfl, rfl⟩

/-- C9 counterexample: in the interleaving read-A, read-B, write-A,
write-B from `sessionQ` at 'questions', BOTH calls read the un-advanced
'questions' snapshot, both acknowledge success and both perform the
advance write — it is not the case that exactly one call lands on
'synergy' while the other observes an already-advanced state; the code
has no per-session serialization. -/
theorem c9_counterexample :
    (runSched storeQ "s1" 9 [Step.readA, Step.readB, Step.writeA, Step.writeB]).snapA =
      some (some sessionQ) ∧
    (runSched storeQ "s1" 9 [Step.readA, Step.readB, Step.writeA, Step.writeB]).snapB =
      some (some sessionQ) ∧
    (runSched storeQ "s1" 9 [Step.readA, Step.readB, Step.writeA, Step.writeB]).ackA =
      some Ack.success ∧
    (runSched storeQ "s1" 9 [Step.readA, Step.readB, Step.writeA, Step.writeB]).ackB =
      some Ack.success ∧
    findById (runSched storeQ "s1" 9 [Step.readA, Step.readB, Step.writeA, Step.writeB]).store
        "s1" =
      some { sessionQ with game_state := some "synergy", current_round := 1 } :=
  ⟨rfl, rfl, rfl, rfl, rfl⟩

/-- C6 counterexample: updating only `status` leaves every other column —
including all three timestamp columns — exactly as they were, and the
session row has no updated-at column at all: no updated-at marker is
refreshed, contrary to the claim. -/
theorem c6_counterexample :
    (GameSessionRepository.update storeQ "s1" { status := some "playing" }).store =
      [{ sessionQ with status := "playing" }] ∧
    ({ sessionQ with status := "playing" } : GameSession).started_at = sessionQ.started_at ∧
    ({ sessionQ with status := "playing" } : GameSession).ended_at = sessionQ.ended_at ∧
    ({ sessionQ with status := "playing" } : GameSession).created_at = sessionQ.created_at :=
  ⟨rfl, rfl, rfl, rfl⟩

/-! ## Characterizing the two branches of the write phase -/

/-- Advance branch of the write phase: when the current label (after the
falsy default) sits at position `i` with `i + 1` still in range, the
handler updates the label to the entry at `i + 1` and the index to
`i + 1`, and emits `round-changed`. -/
theorem writePhase_advance (st : Store) (sid : String) (now : Nat) (s : GameSession)
    (c : String) (hc : orFalsy s.game_state "questions" = c)
    (i : Int) (hi : idxOf roundSequence c = i) (hlt : i + 1 < 5)
    (l' : String) (hl' : roundSequence.get? (i + 1).toNat = some l') :
    writePhase st sid now (some s) =
      { store := storeUpdate st sid
          { game_state := some l', current_round := some (i + 1).toNat },
        ack := Ack.success,
        broadcasts := [Broadcast.roundChanged (i + 1).toNat l'] } := by
  simp only [writePhase]
  rw [hc, hi]
  have hlen : ((roundSequence.length : Nat) : Int) = 5 := by decide
  rw [hlen, if_neg (by omega : ¬ ((5 : Int) ≤ i + 1))]
  rw [hl']
  simp only [Option.getD_some]
  have hne : SessionUpdates.isEmpty
      { game_state := some l', current_round := some (i + 1).toNat } = false := rfl
  simp [GameSessionRepository.update, hne]

/-- Finish branch of the write phase: when the current label is the last
one, the handler calls `endSession` (status 'completed', end timestamp)
and emits `game-finished`. -/
theorem writePhase_finish (st : Store) (sid : String) (now : Nat) (s : GameSession)
    (hc : orFalsy s.game_state "questions" = "results") :
    writePhase st sid now (some s) =
      { store := storeUpdate st sid { status := some "completed", ended_at := some now },
        ack := Ack.success,
        broadcasts := [Broadcast.gameFinished] } := by
  simp only [writePhase]
  rw [hc]
  have hi : idxOf roundSequence "results" = 4 := by decide
  rw [hi]
  have hlen : ((roundSequence.length : Nat) : Int) = 5 := by decide
  rw [hlen, if_pos (by omega : (5 : Int) ≤ 4 + 1)]
  have hne : SessionUpdates.isEmpty
      { status := some "completed", ended_at := some now } = false := rfl
  simp [GameSessionRepository.endSession, GameSessionRepository.update, hne]

/-- The advance update re-establishes the round invariant: the new label
is written together with its own position. -/
theorem roundInv_applyUpdates_advance (s : GameSession) (l' : String) (n : Nat)
    (h : idxOf roundSequence l' = (n : Int)) :
    roundInv (applyUpdates s { game_state := some l', current_round := some n }) :=
  Or.inr (by
    show idxOfOpt (some l') = ((n : Nat) : Int)
    simpa [idxOfOpt] using h)

/-- The finish update satisfies the invariant through its `status =
'completed'` exception. -/
theorem roundInv_applyUpdates_finish (s : GameSession) (now : Nat) :
    roundInv (applyUpdates s { status := some "completed", ended_at := some now }) :=
  Or.inl rfl

/-! ## C1: the AdvanceRound contract -/

/-- C1 (amended): AdvanceRound on an existing session satisfies the
two-branch contract with the status-setting removed from the advance
branch: if the current label has a successor in the fixed sequence, the
operation sets the round label to that successor and the round index to
the successor's position, leaving the status (and end timestamp)
UNCHANGED — it does not set an in-progress status; if the current label
is the last ('results'), it instead marks status 'completed' (the
finished status), stamps the non-null end timestamp, and leaves label
and index unchanged.  Both branches acknowledge success. -/
theorem c1_advance_round_contract :
    (∀ (st : Store) (sid : String) (now : Nat) (s : GameSession) (l l' : String),
      findById st sid = some s → s.game_state = some l →
      (l, l') ∈ [("questions", "synergy"), ("synergy", "blindChat"),
                 ("blindChat", "humor"), ("humor", "results")] →
      (nextRoundHandler st sid now).ack = Ack.success ∧
      findById (nextRoundHandler st sid now).store sid =
        some { s with game_state := some l'
                      current_round := (idxOf roundSequence l').toNat }) ∧
    (∀ (st : Store) (sid : String) (now : Nat) (s : GameSession),
      findById st sid = some s → s.game_state = some "results" →
      (nextRoundHandler st sid now).ack = Ack.success ∧
      findById (nextRoundHandler st sid now).store sid =
        some { s with status := "completed", ended_at := some now }) := by
  constructor
  · intro st sid now s l l' hfind hgs hmem
    have hnr : nextRoundHandler st sid now = writePhase st sid now (some s) := by
      unfold nextRoundHandler readPhase
      rw [hfind]
    simp only [List.mem_cons, List.mem_singleton, Prod.mk.injEq] at hmem
    rcases hmem with ⟨h1, h2⟩ | ⟨h1, h2⟩ | ⟨h1, h2⟩ | ⟨h1, h2⟩ | h
    · subst h1; subst h2
      rw [hnr, writePhase_advance st sid now s "questions" (by rw [hgs]; rfl) 0
        (by decide) (by decide) "synergy" (by decide)]
      exact ⟨rfl, by rw [findById_storeUpdate, hfind]; rfl⟩
    · subst h1; subst h2
      rw [hnr, writePhase_advance st sid now s "synergy" (by rw [hgs]; rfl) 1
        (by decide) (by decide) "blindChat" (by decide)]
      exact ⟨rfl, by rw [findById_storeUpdate, hfind]; rfl⟩
    · subst h1; subst h2
      rw [hnr, writePhase_advance st sid now s "blindChat" (by rw [hgs]; rfl) 2
        (by decide) (by decide) "humor" (by decide)]
      exact ⟨rfl, by rw [findById_storeUpdate, hfind]; rfl⟩
    · subst h1; subst h2
      rw [hnr, writePhase_advance st sid now s "humor" (by rw [hgs]; rfl) 3
        (by decide) (by decide) "results" (by decide)]
      exact ⟨rfl, by rw [findById_storeUpdate, hfind]; rfl⟩
    · exact absurd h (by simp)
  · intro st sid now s hfind hgs
    have hnr : nextRoundHandler st sid now = writePhase st sid now (some s) := by
      unfold nextRoundHandler readPhase
      rw [hfind]
    rw [hnr, writePhase_finish st sid now s (by rw [hgs]; rfl)]
    exact ⟨rfl, by rw [findById_storeUpdate, hfind]; rfl⟩

/-- C1 witness: both branches of the contract applied to concrete
sessions — advancing `sessionQ` (label 'questions') and advancing
`sessionR` (label 'results'). -/
theorem c1_advance_round_contract_witness :
    ((nextRoundHandler storeQ "s1" 9).ack = Ack.success ∧
      findById (nextRoundHandler storeQ "s1" 9).store "s1" =
        some { sessionQ with game_state := some "synergy"
                             current_round := (idxOf roundSequence "synergy").toNat }) ∧
    ((nextRoundHandler storeR "s1" 9).ack = Ack.success ∧
      findById (nextRoundHandler storeR "s1" 9).store "s1" =
        some { sessionR with status := "completed", ended_at := some 9 }) :=
  ⟨c1_advance_round_contract.1 storeQ "s1" 9 sessionQ "questions" "synergy" rfl rfl
      (by decide),
    c1_advance_round_contract.2 storeR "s1" 9 sessionR rfl rfl⟩

/-! ## C3: the round-index/round-label invariant -/

/-- C3 (amended): the advance-round operation preserves the invariant
(indeed it re-establishes it from any state: the advance branch writes a
label together with its own position, and the finish branch moves the
session into the `status = 'completed'` exception).  The other mutating
operations do not preserve it — see the counterexample. -/
theorem c3_advance_preserves_round_invariant (st : Store) (sid : String) (now : Nat)
    (s : GameSession) (hfind : findById st sid = some s) (hinv : roundInv s)
    (s' : GameSession)
    (h' : findById (nextRoundHandler st sid now).store sid = some s') :
    roundInv s' := by
  have hnr : nextRoundHandler st sid now = writePhase st sid now (some s) := by
    unfold nextRoundHandler readPhase
    rw [hfind]
  rw [hnr] at h'
  rcases roundLabel_cases (orFalsy s.game_state "questions") with hc | hc | hc | hc | hc | hc
  · rw [writePhase_advance st sid now s "questions" hc 0 (by decide) (by decide)
      "synergy" (by decide)] at h'
    rw [findById_storeUpdate, hfind, Option.map_some'] at h'
    rw [← Option.some.inj h']
    exact roundInv_applyUpdates_advance s "synergy" 1 (by decide)
  · rw [writePhase_advance st sid now s "synergy" hc 1 (by decide) (by decide)
      "blindChat" (by decide)] at h'
    rw [findById_storeUpdate, hfind, Option.map_some'] at h'
    rw [← Option.some.inj h']
    exact roundInv_applyUpdates_advance s "blindChat" 2 (by decide)
  · rw [writePhase_advance st sid now s "blindChat" hc 2 (by decide) (by decide)
      "humor" (by decide)] at h'
    rw [findById_storeUpdate, hfind, Option.map_some'] at h'
    rw [← Option.some.inj h']
    exact roundInv_applyUpdates_advance s "humor" 3 (by decide)
  · rw [writePhase_advance st sid now s "humor" hc 3 (by decide) (by decide)
      "results" (by decide)] at h'
    rw [findById_storeUpdate, hfind, Option.map_some'] at h'
    rw [← Option.some.inj h']
    exact roundInv_applyUpdates_advance s "results" 4 (by decide)
  · rw [writePhase_finish st sid now s hc] at h'
    rw [findById_storeUpdate, hfind, Option.map_some'] at h'
    rw [← Option.some.inj h']
    exact roundInv_applyUpdates_finish s now
  · rw [writePhase_advance st sid now s (orFalsy s.game_state "questions") rfl (-1) hc
      (by decide) "questions" (by decide)] at h'
    rw [findById_storeUpdate, hfind, Option.map_some'] at h'
    rw [← Option.some.inj h']
    exact roundInv_applyUpdates_advance s "questions" 0 (by decide)

/-- C3 witness: advancing `sessionQ` (which satisfies the invariant)
yields a session that still satisfies it. -/
theorem c3_advance_preserves_round_invariant_witness :
    roundInv sessionQ ∧
    roundInv ({ sessionQ with game_state := some "synergy", current_round := 1 } : GameSession) :=
  ⟨by decide,
    c3_advance_preserves_round_invariant storeQ "s1" 9 sessionQ rfl (by decide)
      { sessionQ with game_state := some "synergy", current_round := 1 } rfl⟩

/-! ## C5: null versus unrecognized current labels -/

/-- C5 (amended): a null (or empty, hence falsy) current label is
defaulted to 'questions' itself and advancing therefore behaves as
advancing from the start, landing on 'synergy' with index 1; but a
non-empty label that is NOT in the sequence is treated as position `-1`,
so advancing from it LANDS on the first label 'questions' with index 0 —
it does not behave as advancing from the start. -/
theorem c5_sequencer_null_vs_unknown :
    (∀ (st : Store) (sid : String) (now : Nat) (s : GameSession),
      findById st sid = some s → (s.game_state = none ∨ s.game_state = some "") →
      (nextRoundHandler st sid now).ack = Ack.success ∧
      findById (nextRoundHandler st sid now).store sid =
        some { s with game_state := some "synergy", current_round := 1 }) ∧
    (∀ (st : Store) (sid : String) (now : Nat) (s : GameSession) (l : String),
      findById st sid = some s → s.game_state = some l → l ≠ "" →
      idxOf roundSequence l = -1 →
      (nextRoundHandler st sid now).ack = Ack.success ∧
      findById (nextRoundHandler st sid now).store sid =
        some { s with game_state := some "questions", current_round := 0 }) := by
  constructor
  · intro st sid now s hfind hgs
    have hnr : nextRoundHandler st sid now = writePhase st sid now (some s) := by
      unfold nextRoundHandler readPhase
      rw [hfind]
    have hc : orFalsy s.game_state "questions" = "questions" := by
      rcases hgs with h | h <;> rw [h] <;> rfl
    rw [hnr, writePhase_advance st sid now s "questions" hc 0 (by decide) (by decide)
      "synergy" (by decide)]
    exact ⟨rfl, by rw [findById_storeUpdate, hfind]; rfl⟩
  · intro st sid now s l hfind hgs hne hidx
    have hnr : nextRoundHandler st sid now = writePhase st sid now (some s) := by
      unfold nextRoundHandler readPhase
      rw [hfind]
    have hc : orFalsy s.game_state "questions" = l := by
      rw [hgs]
      simp [orFalsy, hne]
    rw [hnr, writePhase_advance st sid now s l hc (-1) hidx (by decide)
      "questions" (by decide)]
    exact ⟨rfl, by rw [findById_storeUpdate, hfind]; rfl⟩

/-- Fixture: a session with a null round label. -/
def sessionN : GameSession := { sessionQ with game_state := none }

/-- Fixture store holding only `sessionN`. -/
def storeN : Store := [sessionN]

/-- C5 witness: both parts at concrete sessions — the null label
`sessionN` advances to 'synergy'/1, the unrecognized label `sessionW`
('warmup') lands on 'questions'/0. -/
theorem c5_sequencer_null_vs_unknown_witness :
    ((nextRoundHandler storeN "s1" 9).ack = Ack.success ∧
      findById (nextRoundHandler storeN "s1" 9).store "s1" =
        some { sessionN with game_state := some "synergy", current_round := 1 }) ∧
    ((nextRoundHandler storeW "s1" 9).ack = Ack.success ∧
      findById (nextRoundHandler storeW "s1" 9).store "s1" =
        some { sessionW with game_state := some "questions", current_round := 0 }) :=
  ⟨c5_sequencer_null_vs_unknown.1 storeN "s1" 9 sessionN rfl (Or.inl rfl),
    c5_sequencer_null_vs_unknown.2 storeW "s1" 9 sessionW "warmup" rfl rfl
      (by decide) (by decide)⟩

/-! ## C4: membership enforcement across the three entry points -/

/-- C4 (amended): the REST response route and the real-time room join do
reject non-participants — Forbidden (or NotFound for a missing session)
with no row written and no room joined — but the real-time
submit-response event performs NO membership check: for EVERY caller
identity, participant or not, it inserts the row and acknowledges
success (when no row for the key exists yet). -/
theorem c4_membership_enforcement :
    (∀ (st : Store) (tbl : ResponseTable) (uid sid : String) (rn : Nat)
        (rt : String) (t d : Option String) (s : GameSession),
      findById st sid = some s → ¬ uid ∈ s.participant_ids →
      restSubmitResponse st tbl uid sid rn rt t d =
        (tbl, RestResult.forbidden "You are not participating in this session")) ∧
    (∀ (st : Store) (tbl : ResponseTable) (uid sid : String) (rn : Nat)
        (rt : String) (t d : Option String),
      findById st sid = none →
      restSubmitResponse st tbl uid sid rn rt t d =
        (tbl, RestResult.notFound "Game session not found")) ∧
    (∀ (st : Store) (uid uname sid : String) (s : GameSession),
      findById st sid = some s → ¬ uid ∈ s.participant_ids →
      joinSessionHandler st uid uname sid =
        { ack := Ack.failure "Not a participant in this session"
          broadcasts := [], joinedRoom := none }) ∧
    (∀ (st : Store) (uid uname sid : String),
      findById st sid = none →
      joinSessionHandler st uid uname sid =
        { ack := Ack.failure "Session not found", broadcasts := [], joinedRoom := none }) ∧
    (∀ (tbl : ResponseTable) (uid uname sid : String) (rn : Nat) (rt t : String),
      hasResponseKey tbl sid uid rn = false →
      submitResponseHandler tbl uid uname sid rn rt t =
        { table := tbl ++ [{ game_session_id := sid, user_id := uid, round_number := rn
                             round_type := rt, response_text := t
                             response_data := none, raw_score := 10 }]
          ack := Ack.success
          broadcasts := [Broadcast.responseSubmitted uid uname rn]
          writes := [WriteEvent.insertResponse sid uid rn] }) := by
  refine ⟨?_, ?_, ?_, ?_, ?_⟩
  · intro st tbl uid sid rn rt t d s hfind hmem
    simp only [restSubmitResponse, hfind]
    rw [if_neg hmem]
  · intro st tbl uid sid rn rt t d hfind
    simp only [restSubmitResponse, hfind]
  · intro st uid uname sid s hfind hmem
    simp only [joinSessionHandler, hfind]
    rw [if_neg hmem]
  · intro st uid uname sid hfind
    simp only [joinSessionHandler, hfind]
  · intro tbl uid uname sid rn rt t hkey
    simp only [submitResponseHandler, insertResponse, hkey]
    rfl

/-- C4 witness: all five parts at concrete inputs — "eve" is not a
participant of session "s1" held in `storeQ`. -/
theorem c4_membership_enforcement_witness :
    restSubmitResponse storeQ [] "eve" "s1" 1 "questions" (some "hi") none =
      ([], RestResult.forbidden "You are not participating in this session") ∧
    restSubmitResponse storeQ [] "eve" "nope" 1 "questions" (some "hi") none =
      ([], RestResult.notFound "Game session not found") ∧
    joinSessionHandler storeQ "eve" "Eve" "s1" =
      { ack := Ack.failure "Not a participant in this session"
        broadcasts := [], joinedRoom := none } ∧
    joinSessionHandler storeQ "eve" "Eve" "nope" =
      { ack := Ack.failure "Session not found", broadcasts := [], joinedRoom := none } ∧
    submitResponseHandler [] "eve" "Eve" "s1" 1 "questions" "hi" =
      { table := [{ game_session_id := "s1", user_id := "eve", round_number := 1
                    round_type := "questions", response_text := "hi"
                    response_data := none, raw_score := 10 }]
        ack := Ack.success
        broadcasts := [Broadcast.responseSubmitted "eve" "Eve" 1]
        writes := [WriteEvent.insertResponse "s1" "eve" 1] } :=
  ⟨c4_membership_enforcement.1 storeQ [] "eve" "s1" 1 "questions" (some "hi") none
      sessionQ rfl (by decide),
    c4_membership_enforcement.2.1 storeQ [] "eve" "nope" 1 "questions" (some "hi") none rfl,
    c4_membership_enforcement.2.2.1 storeQ "eve" "Eve" "s1" sessionQ rfl (by decide),
    c4_membership_enforcement.2.2.2.1 storeQ "eve" "Eve" "nope" rfl,
    c4_membership_enforcement.2.2.2.2 [] "eve" "Eve" "s1" 1 "questions" "hi" rfl⟩

/-! ## C6: the exact frame of Update -/

/-- C6 (amended): with a non-empty field set, Update issues exactly one
UPDATE, modifies exactly the supplied fields of the addressed session
and leaves every unsupplied field and every other session untouched;
with an empty field set it degrades to a plain Get and issues no write.
There is no updated-at marker: the session row has no such column and
nothing beyond the supplied fields is refreshed (see the
counterexample). -/
theorem c6_update_exact_frame :
    (∀ (st : Store) (id : String) (u : SessionUpdates), u.isEmpty = true →
      GameSessionRepository.update st id u =
        { store := st, result := findById st id, writes := [] }) ∧
    (∀ (st : Store) (id : String) (u : SessionUpdates), u.isEmpty = false →
      (GameSessionRepository.update st id u).writes = [WriteEvent.updateSessions id u] ∧
      (GameSessionRepository.update st id u).result =
        (findById st id).map (fun s => applyUpdates s u) ∧
      (∀ other, other ≠ id →
        findById (GameSessionRepository.update st id u).store other = findById st other)) ∧
    (∀ (s : GameSession) (u : SessionUpdates),
      (applyUpdates s u).id = s.id ∧
      (applyUpdates s u).room_id = s.room_id ∧
      (applyUpdates s u).participant_ids = s.participant_ids ∧
      (applyUpdates s u).started_at = s.started_at ∧
      (applyUpdates s u).created_at = s.created_at ∧
      (u.status = none → (applyUpdates s u).status = s.status) ∧
      (∀ v, u.status = some v → (applyUpdates s u).status = v) ∧
      (u.game_state = none → (applyUpdates s u).game_state = s.game_state) ∧
      (∀ v, u.game_state = some v → (applyUpdates s u).game_state = some v) ∧
      (u.current_round = none → (applyUpdates s u).current_round = s.current_round) ∧
      (∀ v, u.current_round = some v → (applyUpdates s u).current_round = v) ∧
      (u.ended_at = none → (applyUpdates s u).ended_at = s.ended_at) ∧
      (∀ v, u.ended_at = some v → (applyUpdates s u).ended_at = some v)) := by
  refine ⟨?_, ?_, ?_⟩
  · intro st id u h
    simp [GameSessionRepository.update, h]
  · intro st id u h
    refine ⟨?_, ?_, ?_⟩
    · simp [GameSessionRepository.update, h]
    · simp only [GameSessionRepository.update, h, Bool.false_eq_true, if_false]
      exact findById_storeUpdate st id u
    · intro other hne
      simp only [GameSessionRepository.update, h, Bool.false_eq_true, if_false]
      exact findById_storeUpdate_ne st id other u hne
  · intro s u
    refine ⟨rfl, rfl, rfl, rfl, rfl, ?_, ?_, ?_, ?_, ?_, ?_, ?_, ?_⟩
    · intro h; simp [applyUpdates, h]
    · intro v h; simp [applyUpdates, h]
    · intro h; simp [applyUpdates, h]
    · intro v h; simp [applyUpdates, h]
    · intro h; simp [applyUpdates, h]
    · intro v h; simp [applyUpdates, h]
    · intro h; simp [applyUpdates, h]
    · intro v h; simp [applyUpdates, h]

/-- C6 witness: the empty field set on `storeQ` is a plain read with no
write; a `{status}` field set issues one write and sets only the status. -/
theorem c6_update_exact_frame_witness :
    GameSessionRepository.update storeQ "s1" {} =
      { store := storeQ, result := some sessionQ, writes := [] } ∧
    (GameSessionRepository.update storeQ "s1" { status := some "playing" }).writes =
      [WriteEvent.updateSessions "s1" { status := some "playing" }] ∧
    (GameSessionRepository.update storeQ "s1" { status := some "playing" }).result =
      (findById storeQ "s1").map
        (fun s => applyUpdates s { status := some "playing" }) ∧
    (applyUpdates sessionQ { status := some "playing" }).started_at =
      sessionQ.started_at :=
  ⟨c6_update_exact_frame.1 storeQ "s1" {} rfl,
    (c6_update_exact_frame.2.1 storeQ "s1" { status := some "playing" } rfl).1,
    (c6_update_exact_frame.2.1 storeQ "s1" { status := some "playing" } rfl).2.1,
    (c6_update_exact_frame.2.2 sessionQ { status := some "playing" }).2.2.2.1⟩

/-! ## C9: two concurrent advance calls -/

/-- The advance update written when the snapshot is at 'questions'. -/
def uSyn : SessionUpdates := { game_state := some "synergy", current_round := some 1 }

/-- The advance update written when the snapshot is at 'synergy'. -/
def uBld : SessionUpdates := { game_state := some "blindChat", current_round := some 2 }

/-- C9 (amended): there is no per-session serialization (see the
counterexample — both calls can read the stale snapshot and both issue
the write), but under every interleaving of the two unguarded
read-then-write calls starting at 'questions' the final session is
either 'synergy'/1 (the two writes collapsed to one advance — a lost
update) or 'blindChat'/2 (the calls ran back-to-back): no interleaving
skips past the successor rounds or regresses the round. -/
theorem c9_concurrent_advance_no_skip_no_regress
    (st : Store) (sid : String) (now : Nat) (s : GameSession)
    (hfind : findById st sid = some s) (hgs : s.game_state = some "questions")
    (sched : List Step) (hs : sched ∈ allScheds) :
    ∃ s', findById (runSched st sid now sched).store sid = some s' ∧
      ((s'.game_state = some "synergy" ∧ s'.current_round = 1) ∨
       (s'.game_state = some "blindChat" ∧ s'.current_round = 2)) := by
  have hw1 : ∀ st2 : Store, writePhase st2 sid now (some s) =
      { store := storeUpdate st2 sid uSyn, ack := Ack.success,
        broadcasts := [Broadcast.roundChanged 1 "synergy"] } := by
    intro st2
    rw [writePhase_advance st2 sid now s "questions" (by rw [hgs]; rfl) 0
      (by decide) (by decide) "synergy" (by decide)]
    rfl
  have hw2 : ∀ st2 : Store, writePhase st2 sid now (some (applyUpdates s uSyn)) =
      { store := storeUpdate st2 sid uBld, ack := Ack.success,
        broadcasts := [Broadcast.roundChanged 2 "blindChat"] } := by
    intro st2
    rw [writePhase_advance st2 sid now (applyUpdates s uSyn) "synergy" rfl 1
      (by decide) (by decide) "blindChat" (by decide)]
    rfl
  simp only [allScheds, List.mem_cons, List.not_mem_nil, or_false] at hs
  rcases hs with rfl | rfl | rfl | rfl | rfl | rfl
  · -- A runs fully, then B: two advances land on 'blindChat'
    have hred : (runSched st sid now
        [Step.readA, Step.writeA, Step.readB, Step.writeB]).store =
        (writePhase (writePhase st sid now (findById st sid)).store sid now
          (findById (writePhase st sid now (findById st sid)).store sid)).store := rfl
    refine ⟨applyUpdates (applyUpdates s uSyn) uBld, ?_, Or.inr ⟨rfl, rfl⟩⟩
    rw [hred, hfind]
    simp only [hw1]
    simp only [findById_storeUpdate, hfind, Option.map_some']
    simp only [hw2]
    simp only [findById_storeUpdate, hfind, Option.map_some']
  · -- both read the stale snapshot, A writes, B overwrites: lost update
    have hred : (runSched st sid now
        [Step.readA, Step.readB, Step.writeA, Step.writeB]).store =
        (writePhase (writePhase st sid now (findById st sid)).store sid now
          (findById st sid)).store := rfl
    refine ⟨applyUpdates (applyUpdates s uSyn) uSyn, ?_, Or.inl ⟨rfl, rfl⟩⟩
    rw [hred, hfind]
    simp only [hw1]
    simp only [findById_storeUpdate, hfind, Option.map_some']
  · -- both read stale, B writes, A overwrites: lost update
    have hred : (runSched st sid now
        [Step.readA, Step.readB, Step.writeB, Step.writeA]).store =
        (writePhase (writePhase st sid now (findById st sid)).store sid now
          (findById st sid)).store := rfl
    refine ⟨applyUpdates (applyUpdates s uSyn) uSyn, ?_, Or.inl ⟨rfl, rfl⟩⟩
    rw [hred, hfind]
    simp only [hw1]
    simp only [findById_storeUpdate, hfind, Option.map_some']
  · -- reads in the other order, A writes, B overwrites: lost update
    have hred : (runSched st sid now
        [Step.readB, Step.readA, Step.writeA, Step.writeB]).store =
        (writePhase (writePhase st sid now (findById st sid)).store sid now
          (findById st sid)).store := rfl
    refine ⟨applyUpdates (applyUpdates s uSyn) uSyn, ?_, Or.inl ⟨rfl, rfl⟩⟩
    rw [hred, hfind]
    simp only [hw1]
    simp only [findById_storeUpdate, hfind, Option.map_some']
  · -- reads in the other order, B writes, A overwrites: lost update
    have hred : (runSched st sid now
        [Step.readB, Step.readA, Step.writeB, Step.writeA]).store =
        (writePhase (writePhase st sid now (findById st sid)).store sid now
          (findById st sid)).store := rfl
    refine ⟨applyUpdates (applyUpdates s uSyn) uSyn, ?_, Or.inl ⟨rfl, rfl⟩⟩
    rw [hred, hfind]
    simp only [hw1]
    simp only [findById_storeUpdate, hfind, Option.map_some']
  · -- B runs fully, then A: two advances land on 'blindChat'
    have hred : (runSched st sid now
        [Step.readB, Step.writeB, Step.readA, Step.writeA]).store =
        (writePhase (writePhase st sid now (findById st sid)).store sid now
          (findById (writePhase st sid now (findById st sid)).store sid)).store := rfl
    refine ⟨applyUpdates (applyUpdates s uSyn) uBld, ?_, Or.inr ⟨rfl, rfl⟩⟩
    rw [hred, hfind]
    simp only [hw1]
    simp only [findById_storeUpdate, hfind, Option.map_some']
    simp only [hw2]
    simp only [findById_storeUpdate, hfind, Option.map_some']

/-- C9 witness: the lost-update interleaving on `sessionQ` ends at
'synergy' with index 1. -/
theorem c9_concurrent_advance_no_skip_no_regress_witness :
    ∃ s', findById (runSched storeQ "s1" 9
        [Step.readA, Step.readB, Step.writeA, Step.writeB]).store "s1" = some s' ∧
      ((s'.game_state = some "synergy" ∧ s'.current_round = 1) ∨
       (s'.game_state = some "blindChat" ∧ s'.current_round = 2)) :=
  c9_concurrent_advance_no_skip_no_regress storeQ "s1" 9 sessionQ rfl rfl
    [Step.readA, Step.readB, Step.writeA, Step.writeB] (by decide)

/-! ## C7: leaderboard ordering, ranks, limit and sums -/

/-- Number of occurrences of a participant id in the session's
`participant_ids` array (the lateral unnest multiplicity); 0 when the
session does not exist. -/
def participantMult (st : Store) (sid uid : String) : Nat :=
  match findById st sid with
  | none => 0
  | some s => s.participant_ids.count uid

theorem mem_insertDesc (e x : LeaderboardEntry) (l : List LeaderboardEntry) :
    x ∈ insertDesc e l ↔ x = e ∨ x ∈ l := by
  induction l with
  | nil => simp [insertDesc]
  | cons y ys ih =>
      by_cases h : y.score < e.score
      · simp [insertDesc, h]
      · simp only [insertDesc, if_neg h, List.mem_cons, ih]
        tauto

theorem pairwise_insertDesc (e : LeaderboardEntry) (l : List LeaderboardEntry)
    (h : List.Pairwise (fun a b => b.score ≤ a.score) l) :
    List.Pairwise (fun a b => b.score ≤ a.score) (insertDesc e l) := by
  induction l with
  | nil => simp [insertDesc]
  | cons y ys ih =>
      rcases List.pairwise_cons.mp h with ⟨hy, hys⟩
      by_cases hlt : y.score < e.score
      · rw [insertDesc, if_pos hlt]
        refine List.pairwise_cons.mpr ⟨?_, h⟩
        intro b hb
        rcases List.mem_cons.mp hb with rfl | hb
        · exact le_of_lt hlt
        · exact le_trans (hy b hb) (le_of_lt hlt)
      · rw [insertDesc, if_neg hlt]
        refine List.pairwise_cons.mpr ⟨?_, ih hys⟩
        intro b hb
        rcases (mem_insertDesc e b ys).mp hb with rfl | hb
        · exact le_of_not_lt hlt
        · exact hy b hb

theorem mem_sortDesc (x : LeaderboardEntry) (l : List LeaderboardEntry) :
    x ∈ sortDesc l ↔ x ∈ l := by
  induction l with
  | nil => simp [sortDesc]
  | cons y ys ih => simp [sortDesc, mem_insertDesc, ih]

theorem pairwise_sortDesc (l : List LeaderboardEntry) :
    List.Pairwise (fun a b => b.score ≤ a.score) (sortDesc l) := by
  induction l with
  | nil => exact List.Pairwise.nil
  | cons y ys ih => exact pairwise_insertDesc y (sortDesc ys) ih

theorem length_rankFrom (n : Nat) (l : List LeaderboardEntry) :
    (rankFrom n l).length = l.length := by
  induction l generalizing n with
  | nil => rfl
  | cons y ys ih => simp [rankFrom, ih]

theorem map_rank_rankFrom (n : Nat) (l : List LeaderboardEntry) :
    (rankFrom n l).map (fun e => e.rank) = List.range' n l.length := by
  induction l generalizing n with
  | nil => rfl
  | cons y ys ih => simp [rankFrom, List.range'_succ, ih]

theorem mem_rankFrom (x : LeaderboardEntry) (n : Nat) (l : List LeaderboardEntry)
    (h : x ∈ rankFrom n l) : ∃ y ∈ l, x.score = y.score ∧ x.id = y.id := by
  induction l generalizing n with
  | nil => simp [rankFrom] at h
  | cons y ys ih =>
      rcases List.mem_cons.mp h with rfl | h'
      · exact ⟨y, List.mem_cons_self y ys, rfl, rfl⟩
      · rcases ih (n + 1) h' with ⟨z, hz, h1, h2⟩
        exact ⟨z, List.mem_cons_of_mem y hz, h1, h2⟩

theorem pairwise_rankFrom (n : Nat) (l : List LeaderboardEntry)
    (h : List.Pairwise (fun a b => b.score ≤ a.score) l) :
    List.Pairwise (fun a b => b.score ≤ a.score) (rankFrom n l) := by
  induction l generalizing n with
  | nil => exact List.Pairwise.nil
  | cons y ys ih =>
      rcases List.pairwise_cons.mp h with ⟨hy, hys⟩
      refine List.pairwise_cons.mpr ⟨?_, ih (n + 1) hys⟩
      intro b hb
      rcases mem_rankFrom b (n + 1) ys hb with ⟨z, hz, h1, _⟩
      rw [h1]
      exact hy z hz

theorem take_range' : ∀ (n k a : Nat), (List.range' a n).take k = List.range' a (min n k) := by
  intro n
  induction n with
  | zero => intro k a; simp
  | succ m ih =>
      intro k a
      cases k with
      | zero => simp
      | succ k' =>
          rw [List.range'_succ, List.take_cons (Nat.succ_pos k')]
          have h : k' + 1 - 1 = k' := rfl
          rw [h, ih k' (a + 1), Nat.succ_min_succ, List.range'_succ]

/-- Every grouped row carries the summed (and multiplicity-weighted)
score of its own participant id. -/
theorem score_of_mem_leaderboardGroups (users : List UserRow) (tbl : ResponseTable)
    (sid : String) (pids : List String) (e : LeaderboardEntry)
    (h : e ∈ leaderboardGroups users tbl sid pids) :
    e.score = groupScore tbl sid e.id (pids.count e.id) := by
  rcases List.mem_filterMap.mp h with ⟨pid, _, hf⟩
  rcases Option.map_eq_some'.mp hf with ⟨u, hu, he⟩
  have hid : u.id = pid := by
    have := List.find?_some hu
    exact of_decide_eq_true this
  rw [← he]
  simp only [hid]

/-- Fixture users for the spec's leaderboard example. -/
def usersLB : List UserRow :=
  [{ id := "a", username := "ua" }, { id := "b", username := "ub" },
   { id := "c", username := "uc" }]

/-- Fixture responses seeding scores 30, 50, 10 for a, b, c. -/
def tblLB : ResponseTable :=
  [{ game_session_id := "s1", user_id := "a", round_number := 1, round_type := "questions"
     response_text := "x", response_data := none, raw_score := 30 },
   { game_session_id := "s1", user_id := "b", round_number := 1, round_type := "questions"
     response_text := "y", response_data := none, raw_score := 50 },
   { game_session_id := "s1", user_id := "c", round_number := 1, round_type := "questions"
     response_text := "z", response_data := none, raw_score := 10 }]

/-- Fixture store with the three-participant session. -/
def storeLB : Store := [{ sessionQ with participant_ids := ["a", "b", "c"] }]

/-- C7: the leaderboard is sorted by total score descending, carries the
consecutive rank numbers 1, 2, 3, ... in output order, returns at most
`limit` entries, and every returned entry's score is the (multiplicity
weighted) sum of that participant's stored raw scores for the session;
on the spec's example — three participants seeded 30, 50, 10 — it
returns them ordered 50, 30, 10 with ranks 1, 2, 3. -/
theorem c7_leaderboard_ranking :
    (∀ (users : List UserRow) (tbl : ResponseTable) (st : Store) (sid : String)
        (limit : Nat),
      List.Pairwise (fun a b => b.score ≤ a.score) (getLeaderboard users tbl st sid limit) ∧
      (getLeaderboard users tbl st sid limit).map (fun e => e.rank) =
        List.range' 1 (getLeaderboard users tbl st sid limit).length ∧
      (getLeaderboard users tbl st sid limit).length ≤ limit ∧
      ((getLeaderboard users tbl st sid limit).all fun e =>
        e.score == groupScore tbl sid e.id (participantMult st sid e.id)) = true) ∧
    getLeaderboard usersLB tblLB storeLB "s1" 10 =
      [{ id := "b", username := "ub", score := 50, rank := 1, roundsCompleted := 1 },
       { id := "a", username := "ua", score := 30, rank := 2, roundsCompleted := 1 },
       { id := "c", username := "uc", score := 10, rank := 3, roundsCompleted := 1 }] := by
  constructor
  · intro users tbl st sid limit
    cases hfind : findById st sid with
    | none =>
        have hlb : getLeaderboard users tbl st sid limit = [] := by
          simp [getLeaderboard, hfind]
        rw [hlb]
        exact ⟨List.Pairwise.nil, rfl, Nat.zero_le limit, rfl⟩
    | some session =>
        have hlb : getLeaderboard users tbl st sid limit =
            (rankFrom 1 (sortDesc
              (leaderboardGroups users tbl sid session.participant_ids))).take limit := by
          simp [getLeaderboard, hfind]
        rw [hlb]
        refine ⟨?_, ?_, ?_, ?_⟩
        · exact List.Pairwise.sublist (List.take_sublist limit _)
            (pairwise_rankFrom 1 _ (pairwise_sortDesc _))
        · rw [List.map_take, map_rank_rankFrom, take_range', List.length_take,
            length_rankFrom, Nat.min_comm]
        · rw [List.length_take]
          exact Nat.min_le_left limit _
        · rw [List.all_eq_true]
          intro e he
          rw [beq_iff_eq]
          have he1 : e ∈ rankFrom 1
              (sortDesc (leaderboardGroups users tbl sid session.participant_ids)) :=
            (List.take_sublist limit _).subset he
          rcases mem_rankFrom e 1 _ he1 with ⟨y, hy, hscore, hid⟩
          have hy2 : y ∈ leaderboardGroups users tbl sid session.participant_ids :=
            (mem_sortDesc y _).mp hy
          have hmult : participantMult st sid e.id = session.participant_ids.count e.id := by
            simp [participantMult, hfind]
          rw [hmult, hscore, hid]
          exact score_of_mem_leaderboardGroups users tbl sid session.participant_ids y hy2
  · rfl
